import Mathlib

/-!
Shallow embedding of `farrow-auth-session`.

The repository has two source layers:

1. `createFarrowSession` — the orchestrating middleware, the proxy-wrapped
   `SessionUserDataCtx` (with its `saveToStore` / `regenerate` / `destroy`
   operations) and the request-scoped contexts `modifiedStateCtx` and
   `sessionHeaderCtx`.
2. `cookieSessionParser` / `cookieSessionStore` — the reference cookie
   backend with symmetric encryption and rolling / renew expiry policies.

JavaScript values that flow through the middleware (user data, store results,
credentials) are modelled by `JVal`, so JS truthiness checks (`!x`,
`x || false`) and the sentinel comparisons (`=== undefined`, `=== null`,
`=== false`) translate literally.  Request-scoped contexts become explicit
state records; `Date.now()` becomes an integer parameter; the AES-256-CBC
cipher of the cookie store is modelled symbolically: a ciphertext keeps the
key it was encrypted under and the IV-source credential, and decryption
succeeds exactly when both match (the source derives the key from the secret
and the IV from the credential by hashing, and any mismatch throws during
decryption, which the source catches).
-/

/-- A JavaScript-style value: `undefined`, `null`, booleans, numbers
(integers only — the repository never does fractional arithmetic on user
data), strings, and objects as association lists. -/
inductive JVal where
  | undef : JVal
  | jnull : JVal
  | bool : Bool → JVal
  | num : Int → JVal
  | str : String → JVal
  | obj : List (String × JVal) → JVal
deriving Repr

namespace JVal

/-- JavaScript truthiness: `undefined`, `null`, `false`, `0`, `""` are
falsy; everything else (including the empty object) is truthy. -/
def truthy : JVal → Bool
  | .undef => false
  | .jnull => false
  | .bool b => b
  | .num n => n != 0
  | .str s => s != ""
  | .obj _ => true

/-- JavaScript `a || b`. -/
def jsOr (a b : JVal) : JVal := if a.truthy then a else b

/-- The sentinel comparison `x === undefined`. -/
def isUndef : JVal → Bool
  | .undef => true
  | _ => false

/-- The sentinel comparison `x === null`. -/
def isNull : JVal → Bool
  | .jnull => true
  | _ => false

/-- The sentinel comparison `x === false`. -/
def isFalseLit : JVal → Bool
  | .bool false => true
  | _ => false

end JVal

/-! ## Middleware layer (`createFarrowSession`)

The middleware talks to an abstract `SessionStore` / `SessionParser` pair.
Each boundary call's result is supplied by an environment of oracles: the
middleware only ever observes the resolved values.  Response mutations are
an abstract type `H`; the request-scoped contexts become the fields of
`MWState`. -/

/-- The request-scoped state the middleware manipulates:
`userData` is `sessionUserDataCtx` (with `JVal.undef` standing for the
TypeScript `undefined`), `modified` is `modifiedStateCtx`, and `headers`
is `sessionHeaderCtx` (the accumulated response mutations). -/
structure MWState (H : Type) where
  userData : JVal
  modified : Bool
  headers : List H
deriving Repr

/-- Oracle environment for one request: the results of the parser and store
calls the middleware can make.  `storeTouch = none` models a store that does
not define the optional `touch` method. -/
structure MWEnv (H : Type) where
  /-- result of `sessionParser.get(request)` — a credential or `null`. -/
  parserGet : JVal
  /-- result of `sessionStore.get(credential)` — data, `null` or `undefined`. -/
  storeGet : JVal → JVal
  /-- result of `sessionStore.create(userData?)` — created data or
  `undefined`; a call with no argument passes `undefined`. -/
  storeCreate : JVal → JVal
  /-- result of `sessionStore.set(data)` — `true`, `false` or `undefined`. -/
  storeSet : JVal → JVal
  /-- optional `sessionStore.touch` and its result. -/
  storeTouch : Option JVal
  /-- result of `sessionStore.destroy()`. -/
  storeDestroy : JVal
  /-- the `Response` produced by `sessionParser.set()`. -/
  parserSetHeader : H
  /-- the `Response` produced by `sessionParser.remove()`. -/
  parserRemoveHeader : H

/-- An error response the middleware returns early:
`Response.json({ error: msg }).status(status)`. -/
structure ErrResp where
  status : Nat
  msg : String
deriving DecidableEq, Repr

/-- The `createNewAuth` helper inside the middleware: `sessionStore.create()`; a falsy
result yields a 500 error; otherwise the created data is written to the
context through the proxy-intercepted `set` (raising the modified flag) and
the `sessionParser.set()` header is queued. -/
def createNewAuth {H : Type} (env : MWEnv H) (s : MWState H) :
    Option ErrResp × MWState H :=
  if ¬(env.storeCreate .undef).truthy then
    (some ⟨500, "Internal Server Error"⟩, s)
  else
    (none,
      { userData := env.storeCreate .undef
        modified := true
        headers := s.headers ++ [env.parserSetHeader] })

/-- The credential-resolution phase of the middleware: everything between
`sessionParser.get(request)` and the `modifiedStateCtx.set(false)` reset.
Returns an error response to short-circuit with (if any) and the state
reached. -/
def resolutionPhase {H : Type} (env : MWEnv H) (autoCreateOnMissing : Bool)
    (s : MWState H) : Option ErrResp × MWState H :=
  if ¬env.parserGet.truthy then
    -- missing credential: queue the defensive parser.remove mutation
    let s₁ : MWState H := { s with headers := s.headers ++ [env.parserRemoveHeader] }
    if autoCreateOnMissing then createNewAuth env s₁ else (none, s₁)
  else
    let r := env.storeGet env.parserGet
    if r.isUndef then
      (some ⟨500, "Internal Server Error"⟩, s)
    else if r.isNull then
      createNewAuth env s
    else
      -- population through the proxy-intercepted set raises the flag
      (none, { s with userData := r, modified := true })

/-- The state the downstream handler observes on entry: the resolution
phase's state with `modifiedStateCtx` reset to `false`. -/
def handlerEntry {H : Type} (env : MWEnv H) (autoCreateOnMissing : Bool)
    (s : MWState H) : MWState H :=
  { (resolutionPhase env autoCreateOnMissing s).2 with modified := false }

/-- A record of which persistence calls the autoSave phase made. -/
inductive StoreCall where
  | set : JVal → StoreCall
  | touch : StoreCall
deriving Repr

/-- The autoSave phase of the middleware, run after the downstream handler
returns, on the state the handler left behind.  Returns the error response
it short-circuits with (if any) and the list of store calls it made. -/
def autoSavePhase {H : Type} (env : MWEnv H) (autoSave : Bool)
    (s : MWState H) : Option ErrResp × List StoreCall :=
  if autoSave then
    if !s.userData.isUndef && s.modified then
      let setResult := env.storeSet s.userData
      if setResult.isUndef then (some ⟨500, "Internal Server Error"⟩, [.set s.userData])
      else if setResult.isFalseLit then (some ⟨401, "SessionStore Set Failed"⟩, [.set s.userData])
      else (none, [.set s.userData])
    else if !s.userData.isUndef && !s.modified then
      match env.storeTouch with
      | some touchResult =>
        if touchResult.isUndef then (some ⟨500, "Internal Server Error"⟩, [.touch])
        else if touchResult.isFalseLit then (some ⟨401, "Session Touch Failed"⟩, [.touch])
        else (none, [.touch])
      | none =>
        let setResult := env.storeSet s.userData
        if setResult.isUndef then (some ⟨500, "Internal Server Error"⟩, [.set s.userData])
        else if setResult.isFalseLit then (some ⟨401, "SessionStore Set Failed"⟩, [.set s.userData])
        else (none, [.set s.userData])
    else (none, [])
  else (none, [])

/-- The response the middleware produces: either an early error response
(`Response.json({error}).status(s)` built fresh, carrying no queued
mutation), or the final `Response.merge(...sessionHeaders).merge(response)`
carrying every queued mutation in order plus the downstream response. -/
inductive MWResp (H R : Type) where
  | error : ErrResp → MWResp H R
  | final : List H → R → MWResp H R
deriving Repr

/-- The response mutations actually present on the returned response:
an early error response is a freshly constructed JSON response with no
cookie mutations; the final response is merged from every queued header. -/
def MWResp.respHeaders {H R : Type} : MWResp H R → List H
  | .error _ => []
  | .final hs _ => hs

/-- The whole middleware for one request.  `handler` is the downstream
pipeline: it receives the request state (and may mutate the session context
and queue headers through it) and produces a response. -/
def middleware {H R : Type} (env : MWEnv H)
    (autoCreateOnMissing autoSave : Bool)
    (handler : MWState H → MWState H × R) (s : MWState H) : MWResp H R :=
  match resolutionPhase env autoCreateOnMissing s with
  | (some e, _) => .error e
  | (none, _) =>
    let s₂ := handlerEntry env autoCreateOnMissing s
    let (s₃, response) := handler s₂
    match autoSavePhase env autoSave s₃ with
    | (some e, _) => .error e
    | (none, _) => .final s₃.headers response

/-- The `sessionUserDataCtx.saveToStore` operation, bound by `createFarrowSession`.
Returns the JS value it resolves to and the store calls it made.  Note the
source returns `setResult || false` / `touchResult || false`. -/
def saveToStore {H : Type} (env : MWEnv H) (s : MWState H) :
    JVal × List StoreCall :=
  if s.userData.isUndef then (.bool false, [])
  else if s.modified then
    ((env.storeSet s.userData).jsOr (.bool false), [.set s.userData])
  else
    match env.storeTouch with
    | some touchResult => (touchResult.jsOr (.bool false), [.touch])
    | none => ((env.storeSet s.userData).jsOr (.bool false), [.set s.userData])

/-- The `sessionUserDataCtx.destroy` operation, bound by `createFarrowSession`: no data
present returns `false`; a falsy `sessionStore.destroy()` result is returned
unchanged with no side effect; on success the context is cleared through the
proxy-intercepted `set` (raising the modified flag), the `parser.remove()`
header is queued and `true` is returned. -/
def ctxDestroy {H : Type} (env : MWEnv H) (s : MWState H) :
    JVal × MWState H :=
  if s.userData.isUndef then (.bool false, s)
  else if !env.storeDestroy.truthy then (env.storeDestroy, s)
  else
    (.bool true,
      { userData := .undef
        modified := true
        headers := s.headers ++ [env.parserRemoveHeader] })

/-- The `sessionUserDataCtx.regenerate` operation, bound by `createFarrowSession`. -/
def ctxRegenerate {H : Type} (env : MWEnv H) (s : MWState H) :
    JVal × MWState H :=
  if s.userData.isUndef then (.bool false, s)
  else if (env.storeCreate s.userData).isUndef then (.undef, s)
  else
    (.bool true, { s with headers := s.headers ++ [env.parserSetHeader] })

/-! ## Cookie-backed reference store (`cookieSessionStore`)

The store keeps the whole session inside one encrypted cookie.  The cipher
is AES-256-CBC with key `sha256(secret)` and IV `sha256(sessionId)[0..16]`;
we model a ciphertext symbolically as the plaintext envelope tagged with the
secret and sessionId it was encrypted under — decryption recovers the
envelope exactly when both match, and otherwise throws (caught by `get`).
`Date.now()` is an explicit `now : Int` parameter, and the `ulid()` fresh
credential is an explicit parameter of `create`. -/

/-- The plaintext envelope serialized into the data cookie:
`{ _data: ..., _expires: ... }` (source field names `_data` / `_expires`). -/
structure Envelope where
  data : JVal
  expires : Int
deriving Repr

/-- Symbolic AES-256-CBC ciphertext: the envelope together with the secret
the key was derived from and the sessionId the IV was derived from. -/
structure Ciphertext where
  secret : String
  sessionId : String
  plain : Envelope
deriving Repr

/-- The `sessionMetaDataCtx` payload: a `sessionId` and `expiresTime` pair. -/
structure SessionMeta where
  sessionId : String
  expiresTime : Int
deriving DecidableEq, Repr

/-- A response mutation the cookie store queues on `authHeaderCtx`:
either `Response.cookie(sessionStoreKey, encrypted, {...maxAge})` or the
clearing `Response.cookie(sessionStoreKey, '', {expires: 0, maxAge: 0})`. -/
inductive CookieMutation where
  | setData : Ciphertext → Int → CookieMutation
  | clearData : CookieMutation
deriving Repr

/-- The request-scoped state the cookie store manipulates:
`meta` is `sessionMetaDataCtx`, `headers` is `authHeaderCtx`. -/
structure CStoreState where
  meta : Option SessionMeta
  headers : List CookieMutation
deriving Repr

/-- The `cookieSessionStore` options after defaulting: `renewBefore` defaults to
`10 * oneMinute * 1000` and `maxAge` to `30 * oneMinute * 1000` with
`oneMinute = 60`.  The constructor rejects `rolling ∧ renew`. -/
structure CookieStoreOptions where
  secret : String
  rolling : Bool := false
  renew : Bool := false
  renewBefore : Int := 10 * 60 * 1000
  maxAge : Int := 30 * 60 * 1000
  dataCreator : Option (JVal → JVal) := none

/-- Embedding of `cookieSessionStore.create(userData?)`: allocates `expiresTime = now +
maxAge`, publishes the session metadata, seeds the data through
`dataCreator` when configured and through `userData || {}` otherwise,
queues the encrypted data cookie and returns the initial data. -/
def cookieCreate (o : CookieStoreOptions) (now : Int) (newSessionId : String)
    (userData : JVal) (s : CStoreState) : JVal × CStoreState :=
  let expiresTime := now + o.maxAge
  let initialData :=
    match o.dataCreator with
    | some f => f userData
    | none => userData.jsOr (.obj [])
  let ct : Ciphertext := ⟨o.secret, newSessionId, ⟨initialData, expiresTime⟩⟩
  (initialData,
    { meta := some ⟨newSessionId, expiresTime⟩
      headers := s.headers ++ [.setData ct o.maxAge] })

/-- Embedding of `cookieSessionStore.get(sessionId)`: reads the data cookie from the
request (`cookieData`), returns `null` when absent; a decryption failure
(secret or sessionId mismatch) queues a clearing mutation and returns
`null`; an expired envelope returns `null`; otherwise the expiry policy is
applied, metadata published and the stored data returned. -/
def cookieGet (o : CookieStoreOptions) (now : Int) (sessionId : String)
    (cookieData : Option Ciphertext) (s : CStoreState) :
    JVal × CStoreState :=
  match cookieData with
  | none => (.jnull, s)
  | some ct =>
    if ct.secret = o.secret ∧ ct.sessionId = sessionId then
      let e := ct.plain.expires
      if e ≠ 0 ∧ e < now then
        (.jnull, s)
      else
        let newExpiresTime :=
          if o.rolling then now + o.maxAge
          else if o.renew then
            if e - now < o.renewBefore then now + o.maxAge else e
          else e
        (ct.plain.data, { s with meta := some ⟨sessionId, newExpiresTime⟩ })
    else
      (.jnull, { s with headers := s.headers ++ [.clearData] })

/-- Embedding of `cookieSessionStore.set(sessionData)`: `false` when no session metadata
is live; otherwise recomputes the expiry per policy, republishes metadata,
queues the re-encrypted data cookie and returns `true`. -/
def cookieSet (o : CookieStoreOptions) (now : Int) (sessionData : JVal)
    (s : CStoreState) : JVal × CStoreState :=
  match s.meta with
  | none => (.bool false, s)
  | some meta =>
    let expiresTime :=
      if o.rolling then now + o.maxAge
      else if o.renew then
        if meta.expiresTime - now < o.renewBefore then now + o.maxAge
        else meta.expiresTime
      else meta.expiresTime
    let ct : Ciphertext := ⟨o.secret, meta.sessionId, ⟨sessionData, expiresTime⟩⟩
    (.bool true,
      { meta := some ⟨meta.sessionId, expiresTime⟩
        headers := s.headers ++ [.setData ct o.maxAge] })

/-- Embedding of `cookieSessionStore.destroy()`: queues a clearing mutation, clears the
session metadata and returns `true`. -/
def cookieDestroy (s : CStoreState) : JVal × CStoreState :=
  (.bool true, { meta := none, headers := s.headers ++ [.clearData] })

/-! ## Handler-phase operations

After the middleware's reset of `modifiedStateCtx`, the code that runs until
the end of the request (the downstream handler and then the autoSave phase)
can touch the request-scoped state only through these operations: the
proxy-intercepted `set`, the plain `get`, the three bound lifecycle
operations, and queueing a response on `sessionHeaderCtx`. -/

/-- One state-touching operation available during the handler phase. -/
inductive HOp (H : Type) where
  | ctxSet : JVal → HOp H
  | ctxGet : HOp H
  | save : HOp H
  | regen : HOp H
  | destroyOp : HOp H
  | queueHeader : H → HOp H

/-- The state transformation of one handler-phase operation.  The
proxy-intercepted `set` always raises the modified flag; `saveToStore`
never writes the context; `regenerate` and `destroy` act as embedded
above. -/
def applyHOp {H : Type} (env : MWEnv H) : HOp H → MWState H → MWState H
  | .ctxSet v, s => { s with userData := v, modified := true }
  | .ctxGet, s => s
  | .save, s => s
  | .regen, s => (ctxRegenerate env s).2
  | .destroyOp, s => (ctxDestroy env s).2
  | .queueHeader h, s => { s with headers := s.headers ++ [h] }

/-- Running a sequence of handler-phase operations. -/
def runHOps {H : Type} (env : MWEnv H) (ops : List (HOp H))
    (s : MWState H) : MWState H :=
  ops.foldl (fun st op => applyHOp env op st) s

/-! ## Concrete scenario instances -/

/-- A concrete response-mutation type for scenario instantiations. -/
inductive Hdr where
  | removeCred
  | setCred
deriving DecidableEq, Repr

/-- Sample user data `{ id: "1" }`. -/
def dObj : JVal := .obj [("id", .str "1")]

/-- A benign environment: a truthy credential that resolves to `dObj`, a
store whose writes and destroys succeed and whose `touch` is undefined. -/
def envA : MWEnv Hdr :=
  { parserGet := .str "cred"
    storeGet := fun _ => dObj
    storeCreate := fun _ => .obj []
    storeSet := fun _ => .bool true
    storeTouch := none
    storeDestroy := .bool true
    parserSetHeader := .setCred
    parserRemoveHeader := .removeCred }

/-- Variant of `envA` with a store whose `set` reports an internal error
(resolves to `undefined`). -/
def envSetUndef : MWEnv Hdr := { envA with storeSet := fun _ => .undef }

/-- Variant of `envA` with a missing credential and a failing `create`. -/
def envNoCredCreateFails : MWEnv Hdr :=
  { envA with parserGet := .jnull, storeCreate := fun _ => .undef }

/-- The request-start middleware state: no data, flag down, no headers. -/
def mwS0 : MWState Hdr := ⟨.undef, false, []⟩

/-- A downstream handler that changes nothing and returns `0`. -/
def idHandler : MWState Hdr → MWState Hdr × Nat := fun s => (s, 0)

/-- Cookie-store options of the spec scenario: `secret = "s"`,
`maxAge = 1000` ms, fixed expiry policy. -/
def oScenario : CookieStoreOptions := { secret := "s", maxAge := 1000 }

/-- The ciphertext emitted by creating `{id:"1"}` at time 0 under
`oScenario` with fresh credential `"A"`. -/
def ctScenario : Ciphertext := ⟨"s", "A", ⟨dObj, 1000⟩⟩

/-- The store state right after that creation. -/
def sScenario : CStoreState := (cookieCreate oScenario 0 "A" dObj ⟨none, []⟩).2

/-- No single handler-phase operation lowers the modified flag. -/
theorem applyHOp_modified_mono {H : Type} (env : MWEnv H) (op : HOp H)
    (s : MWState H) (h : s.modified = true) :
    (applyHOp env op s).modified = true := by
  cases op with
  | ctxSet v => rfl
  | ctxGet => exact h
  | save => exact h
  | regen =>
    unfold applyHOp ctxRegenerate
    by_cases h₁ : s.userData.isUndef <;>
      by_cases h₂ : (env.storeCreate s.userData).isUndef <;> simp [h₁, h₂, h]
  | destroyOp =>
    unfold applyHOp ctxDestroy
    by_cases h₁ : s.userData.isUndef <;>
      by_cases h₂ : env.storeDestroy.truthy <;> simp [h₁, h₂, h]
  | queueHeader hd => exact h

/-- No sequence of handler-phase operations lowers the modified flag. -/
theorem runHOps_modified_mono {H : Type} (env : MWEnv H)
    (ops : List (HOp H)) (s : MWState H) (h : s.modified = true) :
    (runHOps env ops s).modified = true := by
  induction ops generalizing s with
  | nil => exact h
  | cons op rest ih =>
    exact ih (applyHOp env op s) (applyHOp_modified_mono env op s h)

/-! ## Claim theorems -/

/-- A value that is literally `false` is not `undefined`. -/
theorem isUndef_false_of_isFalseLit :
    ∀ {x : JVal}, x.isFalseLit = true → x.isUndef = false
  | .bool false, _ => rfl
  | .undef, h => Bool.noConfusion h
  | .jnull, h => Bool.noConfusion h
  | .bool true, h => Bool.noConfusion h
  | .num _, h => Bool.noConfusion h
  | .str _, h => Bool.noConfusion h
  | .obj _, h => Bool.noConfusion h

/-- C6: for every request in which the parsed credential is truthy and
`Store.get` resolves it to data (neither `undefined` nor `null`), the state
the middleware hands to the downstream handler — `middleware` invokes
`handler` on exactly `handlerEntry env ac s` — carries precisely that data
in the session context and a lowered modified flag: the population performed
by the orchestrator does not count as a mutation. -/
theorem handler_entry_sees_resolved_data {H : Type} (env : MWEnv H)
    (ac : Bool) (s : MWState H)
    (hcred : env.parserGet.truthy = true)
    (hundef : (env.storeGet env.parserGet).isUndef = false)
    (hnull : (env.storeGet env.parserGet).isNull = false) :
    handlerEntry env ac s =
      { userData := env.storeGet env.parserGet
        modified := false
        headers := s.headers } := by
  unfold handlerEntry resolutionPhase
  simp [hcred, hundef, hnull]

/-- Witness for C6: in the benign environment the handler starts with the
resolved `{id:"1"}` and `isModified = false`. -/
theorem handler_entry_sees_resolved_data_witness :
    handlerEntry envA true mwS0 =
      { userData := dObj, modified := false, headers := [] } := by
  have h := handler_entry_sees_resolved_data envA true mwS0 rfl rfl rfl
  simpa [envA, mwS0] using h

/-- C8 counterexample: within a single request the modified flag is not
monotonic.  In the benign environment the orchestrator's population of the
session context (which goes through the proxy-intercepted `set`) raises the
flag during the resolution phase, and the orchestrator's own reset —
executed immediately afterwards, before the downstream handler and well
before the request ends — lowers it back to `false`. -/
theorem modified_flag_not_monotonic_counterexample :
    (resolutionPhase envA true mwS0).2.modified = true ∧
    (handlerEntry envA true mwS0).modified = false := by
  constructor <;> rfl

/-- C8 (amended): from the orchestrator's reset onward — i.e. during the
downstream handler and the autoSave phase — the modified flag is monotonic:
once any handler-phase operation has raised it, no sequence of
handler-phase operations lowers it before the request ends.  (The autoSave
phase never writes the flag at all.) -/
theorem modified_monotonic_after_reset {H : Type} (env : MWEnv H)
    (ops : List (HOp H)) (s : MWState H) (h : s.modified = true) :
    (runHOps env ops s).modified = true :=
  runHOps_modified_mono env ops s h

/-- Witness for the amended C8: a raised flag survives a concrete sequence
of handler-phase operations (a read, a save, a destroy and a further set). -/
theorem modified_monotonic_after_reset_witness :
    (runHOps envA [.ctxGet, .save, .destroyOp, .ctxSet dObj]
      ⟨dObj, true, []⟩).modified = true :=
  modified_monotonic_after_reset envA _ _ rfl

/-- C9: when `destroy` is invoked while data is present and the store's
destroy succeeds, it returns `true`, the context afterwards holds no data,
and — because the internal clearing write goes through the
proxy-intercepted `set` — the modified flag is raised and stays raised for
any continuation of the request. -/
theorem destroy_clears_data_and_raises_flag {H : Type} (env : MWEnv H)
    (s : MWState H)
    (hdata : s.userData.isUndef = false)
    (hok : env.storeDestroy.truthy = true) :
    (ctxDestroy env s).1 = .bool true ∧
    (ctxDestroy env s).2.userData = .undef ∧
    (ctxDestroy env s).2.modified = true ∧
    ∀ ops : List (HOp H),
      (runHOps env ops (ctxDestroy env s).2).modified = true := by
  have hd : ctxDestroy env s =
      (.bool true, ⟨.undef, true, s.headers ++ [env.parserRemoveHeader]⟩) := by
    unfold ctxDestroy
    simp [hdata, hok]
  refine ⟨by rw [hd], by rw [hd], by rw [hd], fun ops => ?_⟩
  exact runHOps_modified_mono env ops _ (by rw [hd])

/-- Witness for C9: destroying a session holding `{id:"1"}` in the benign
environment clears the data, raises the flag, and the flag survives a
subsequent read. -/
theorem destroy_clears_data_and_raises_flag_witness :
    (ctxDestroy envA ⟨dObj, false, []⟩).1 = .bool true ∧
    (ctxDestroy envA ⟨dObj, false, []⟩).2.userData = .undef ∧
    (ctxDestroy envA ⟨dObj, false, []⟩).2.modified = true ∧
    (runHOps envA [.ctxGet] (ctxDestroy envA ⟨dObj, false, []⟩).2).modified = true := by
  have h := destroy_clears_data_and_raises_flag envA ⟨dObj, false, []⟩ rfl rfl
  exact ⟨h.1, h.2.1, h.2.2.1, h.2.2.2 [.ctxGet]⟩

/-- C1: under `autoSave = true`, after the downstream handler returns
(`middleware` runs `autoSavePhase` on the handler's exit state and returns
any error it produces as the response): with data present and the flag
raised, exactly `Store.set` is called with that data, an `undefined` result
maps to a 500 error and a `false` result to a 401 error; with data present
and the flag down, `Store.touch` is preferred when defined and `Store.set`
is the fallback, under the same error mapping; with data absent no
persistence call is made. -/
theorem autoSave_phase_behaviour {H : Type} (env : MWEnv H) (s : MWState H) :
    (s.userData.isUndef = false → s.modified = true →
      (autoSavePhase env true s).2 = [.set s.userData] ∧
      ((env.storeSet s.userData).isUndef = true →
        (autoSavePhase env true s).1 = some ⟨500, "Internal Server Error"⟩) ∧
      ((env.storeSet s.userData).isFalseLit = true →
        (autoSavePhase env true s).1 = some ⟨401, "SessionStore Set Failed"⟩) ∧
      ((env.storeSet s.userData).isUndef = false →
        (env.storeSet s.userData).isFalseLit = false →
        (autoSavePhase env true s).1 = none))
    ∧
    (s.userData.isUndef = false → s.modified = false →
      (∀ tr, env.storeTouch = some tr →
        (autoSavePhase env true s).2 = [.touch] ∧
        (tr.isUndef = true →
          (autoSavePhase env true s).1 = some ⟨500, "Internal Server Error"⟩) ∧
        (tr.isFalseLit = true →
          (autoSavePhase env true s).1 = some ⟨401, "Session Touch Failed"⟩) ∧
        (tr.isUndef = false → tr.isFalseLit = false →
          (autoSavePhase env true s).1 = none)) ∧
      (env.storeTouch = none →
        (autoSavePhase env true s).2 = [.set s.userData] ∧
        ((env.storeSet s.userData).isUndef = true →
          (autoSavePhase env true s).1 = some ⟨500, "Internal Server Error"⟩) ∧
        ((env.storeSet s.userData).isFalseLit = true →
          (autoSavePhase env true s).1 = some ⟨401, "SessionStore Set Failed"⟩) ∧
        ((env.storeSet s.userData).isUndef = false →
          (env.storeSet s.userData).isFalseLit = false →
          (autoSavePhase env true s).1 = none)))
    ∧
    (s.userData.isUndef = true →
      (autoSavePhase env true s).2 = []) := by
  refine ⟨fun h1 h2 => ?_, fun h1 h2 => ⟨fun tr htr => ?_, fun htr => ?_⟩,
    fun h1 => ?_⟩
  · refine ⟨?_, fun hu => ?_, fun hf => ?_, fun hu hf => ?_⟩
    · by_cases hu : (env.storeSet s.userData).isUndef <;>
        by_cases hf : (env.storeSet s.userData).isFalseLit <;>
        simp_all [autoSavePhase]
    · simp_all [autoSavePhase]
    · have hu := isUndef_false_of_isFalseLit hf
      simp_all [autoSavePhase]
    · simp_all [autoSavePhase]
  · refine ⟨?_, fun hu => ?_, fun hf => ?_, fun hu hf => ?_⟩
    · by_cases hu : tr.isUndef <;> by_cases hf : tr.isFalseLit <;>
        simp_all [autoSavePhase]
    · simp_all [autoSavePhase]
    · have hu := isUndef_false_of_isFalseLit hf
      simp_all [autoSavePhase]
    · simp_all [autoSavePhase]
  · refine ⟨?_, fun hu => ?_, fun hf => ?_, fun hu hf => ?_⟩
    · by_cases hu : (env.storeSet s.userData).isUndef <;>
        by_cases hf : (env.storeSet s.userData).isFalseLit <;>
        simp_all [autoSavePhase]
    · simp_all [autoSavePhase]
    · have hu := isUndef_false_of_isFalseLit hf
      simp_all [autoSavePhase]
    · simp_all [autoSavePhase]
  · simp [autoSavePhase, h1]

/-- Witness for C1: modified data present and a store whose `set` reports
an internal error; the phase calls `Store.set` once and produces the 500
error response. -/
theorem autoSave_phase_behaviour_witness :
    (autoSavePhase envSetUndef true ⟨dObj, true, ([] : List Hdr)⟩).2 =
      [.set dObj] ∧
    (autoSavePhase envSetUndef true ⟨dObj, true, ([] : List Hdr)⟩).1 =
      some ⟨500, "Internal Server Error"⟩ := by
  have h := (autoSave_phase_behaviour envSetUndef
    ⟨dObj, true, ([] : List Hdr)⟩).1 rfl rfl
  exact ⟨h.1, h.2.1 rfl⟩

/-- C4 counterexample: `saveToStore` does not propagate the store's
tri-state result directly.  With data present, the flag raised, and a store
whose `set` resolves to `undefined` (internal error), `saveToStore`
resolves to `false` — the `setResult || false` in the source collapses the
internal-error outcome into the plain-failure outcome. -/
theorem saveToStore_conflates_internal_error_counterexample :
    envSetUndef.storeSet dObj = JVal.undef ∧
    saveToStore envSetUndef ⟨dObj, true, ([] : List Hdr)⟩ =
      (JVal.bool false, [.set dObj]) ∧
    JVal.bool false ≠ JVal.undef :=
  ⟨rfl, rfl, fun h => JVal.noConfusion h⟩

/-- C4 (amended): `saveToStore` returns `false` when no data is present;
with data present it calls `Store.set` when the flag is raised, and
otherwise `Store.touch` when defined with `Store.set` as fallback; it
passes the store's `true` and `false` results through but maps the store's
`undefined` (internal-error) result to `false`, so the caller cannot
distinguish an internal error from a rejected write. -/
theorem saveToStore_behaviour {H : Type} (env : MWEnv H) (s : MWState H) :
    (s.userData.isUndef = true → saveToStore env s = (.bool false, []))
    ∧
    (s.userData.isUndef = false → s.modified = true →
      (saveToStore env s).2 = [.set s.userData] ∧
      (env.storeSet s.userData = .bool true → (saveToStore env s).1 = .bool true) ∧
      (env.storeSet s.userData = .bool false → (saveToStore env s).1 = .bool false) ∧
      (env.storeSet s.userData = .undef → (saveToStore env s).1 = .bool false))
    ∧
    (s.userData.isUndef = false → s.modified = false →
      (∀ tr, env.storeTouch = some tr →
        (saveToStore env s).2 = [.touch] ∧
        (tr = .bool true → (saveToStore env s).1 = .bool true) ∧
        (tr = .bool false → (saveToStore env s).1 = .bool false) ∧
        (tr = .undef → (saveToStore env s).1 = .bool false)) ∧
      (env.storeTouch = none →
        (saveToStore env s).2 = [.set s.userData] ∧
        (env.storeSet s.userData = .bool true → (saveToStore env s).1 = .bool true) ∧
        (env.storeSet s.userData = .bool false → (saveToStore env s).1 = .bool false) ∧
        (env.storeSet s.userData = .undef → (saveToStore env s).1 = .bool false))) := by
  refine ⟨fun h1 => ?_, fun h1 h2 => ?_, fun h1 h2 => ⟨fun tr htr => ?_, fun htr => ?_⟩⟩
  · simp [saveToStore, h1]
  · refine ⟨?_, fun hr => ?_, fun hr => ?_, fun hr => ?_⟩ <;>
      simp_all [saveToStore, JVal.jsOr, JVal.truthy]
  · refine ⟨?_, fun hr => ?_, fun hr => ?_, fun hr => ?_⟩ <;>
      simp_all [saveToStore, JVal.jsOr, JVal.truthy]
  · refine ⟨?_, fun hr => ?_, fun hr => ?_, fun hr => ?_⟩ <;>
      simp_all [saveToStore, JVal.jsOr, JVal.truthy]

/-- Witness for the amended C4: with a successful store write the call list
is one `set` and the result is `true`; with an internal store error the
result collapses to `false`. -/
theorem saveToStore_behaviour_witness :
    (saveToStore envA ⟨dObj, true, []⟩).2 = [.set dObj] ∧
    (saveToStore envA ⟨dObj, true, []⟩).1 = .bool true ∧
    (saveToStore envSetUndef ⟨dObj, true, []⟩).1 = .bool false := by
  have hA := (saveToStore_behaviour envA ⟨dObj, true, []⟩).2.1 rfl rfl
  have hU := (saveToStore_behaviour envSetUndef ⟨dObj, true, []⟩).2.1 rfl rfl
  exact ⟨hA.1, hA.2.1 rfl, hU.2.2.2 rfl⟩

/-- C2 counterexample (the spec's own scenario): secret `"s"`, session
created with `{id:"1"}` and `maxAge = 1000` ms at time 0; at virtual time
1500 the `get` on the echoed cookie returns `null` (expired) but the store
state — in particular `authHeaderCtx` — is unchanged: no credential- or
data-cookie-clearing mutation is emitted on the expiry path, unlike the
decrypt-failure path. -/
theorem expired_get_emits_no_clearing_counterexample :
    sScenario.headers = [.setData ctScenario 1000] ∧
    (cookieGet oScenario 1500 "A" (some ctScenario) sScenario).1 = JVal.jnull ∧
    (cookieGet oScenario 1500 "A" (some ctScenario) sScenario).2.headers =
      sScenario.headers := by
  refine ⟨rfl, ?_, ?_⟩ <;> rfl

/-- C2 (amended): a `get` on a payload that fails decryption (mismatched
secret or credential) returns `null` and emits a mutation clearing the
session-data cookie; a `get` on a payload whose stored expiry is in the
past returns `null` but leaves the store state — and hence the queued
response mutations — unchanged, so the client keeps the expired cookie
until something else clears it. -/
theorem cookie_get_failure_handling (o : CookieStoreOptions) (now : Int)
    (sid : String) (ct : Ciphertext) (s : CStoreState) :
    (¬(ct.secret = o.secret ∧ ct.sessionId = sid) →
      cookieGet o now sid (some ct) s =
        (.jnull, { s with headers := s.headers ++ [.clearData] }))
    ∧
    (ct.secret = o.secret → ct.sessionId = sid →
      ct.plain.expires ≠ 0 → ct.plain.expires < now →
      cookieGet o now sid (some ct) s = (.jnull, s)) := by
  constructor
  · intro h
    simp only [cookieGet]
    rw [if_neg h]
  · intro h1 h2 h3 h4
    simp only [cookieGet]
    rw [if_pos ⟨h1, h2⟩, if_pos ⟨h3, h4⟩]

/-- Witness for the amended C2: a ciphertext under the wrong secret is
cleared, and the expired scenario cookie is rejected in place. -/
theorem cookie_get_failure_handling_witness :
    cookieGet oScenario 0 "A" (some ⟨"other", "A", ⟨dObj, 1000⟩⟩) ⟨none, []⟩ =
      (.jnull, { meta := none, headers := [.clearData] }) ∧
    cookieGet oScenario 1500 "A" (some ctScenario) sScenario =
      (.jnull, sScenario) := by
  constructor
  · exact (cookie_get_failure_handling oScenario 0 "A" ⟨"other", "A", ⟨dObj, 1000⟩⟩
      ⟨none, []⟩).1 (by decide)
  · exact (cookie_get_failure_handling oScenario 1500 "A" ctScenario
      sScenario).2 rfl rfl (by decide) (by decide)

/-- C7: creating a session and immediately reading it back — the emitted
encrypted cookie echoed into the request, the returned credential used for
the lookup, and no more than `maxAge` elapsed — yields exactly the data
`create` returned.  The first conjunct certifies that the ciphertext used
is precisely the one `create` queued. -/
theorem create_get_roundtrip (o : CookieStoreOptions) (now now' : Int)
    (sid : String) (ud : JVal) (s : CStoreState)
    (h : now' ≤ now + o.maxAge) :
    (cookieCreate o now sid ud s).2.headers = s.headers ++
      [.setData ⟨o.secret, sid, ⟨(cookieCreate o now sid ud s).1, now + o.maxAge⟩⟩
        o.maxAge] ∧
    (cookieGet o now' sid
        (some ⟨o.secret, sid, ⟨(cookieCreate o now sid ud s).1, now + o.maxAge⟩⟩)
        (cookieCreate o now sid ud s).2).1 =
      (cookieCreate o now sid ud s).1 := by
  constructor
  · simp only [cookieCreate]
  · have hne : ¬(now + o.maxAge ≠ 0 ∧ now + o.maxAge < now') :=
      fun hc => absurd hc.2 (not_lt.2 h)
    simp [cookieGet, hne]

/-- Witness for C7: the scenario session created at time 0 with
`maxAge = 1000` reads back to `{id:"1"}` at time 1000. -/
theorem create_get_roundtrip_witness :
    (cookieGet oScenario 1000 "A"
        (some ⟨"s", "A", ⟨(cookieCreate oScenario 0 "A" dObj ⟨none, []⟩).1, 1000⟩⟩)
        (cookieCreate oScenario 0 "A" dObj ⟨none, []⟩).2).1 =
      (cookieCreate oScenario 0 "A" dObj ⟨none, []⟩).1 :=
  (create_get_roundtrip oScenario 0 1000 "A" dObj ⟨none, []⟩ (by decide)).2

/-- C10: with no `dataCreator` configured, `create(userData)` stores and
returns the empty object whenever the supplied user data is falsy — also
for present falsy values such as `""` or `0` (`userData || {}` in the
source), so a present-but-falsy value is silently replaced. -/
theorem create_replaces_falsy_data (o : CookieStoreOptions) (now : Int)
    (sid : String) (ud : JVal) (s : CStoreState)
    (hdc : o.dataCreator = none) (hfalsy : ud.truthy = false) :
    (cookieCreate o now sid ud s).1 = .obj [] ∧
    (cookieCreate o now sid ud s).2.headers = s.headers ++
      [.setData ⟨o.secret, sid, ⟨.obj [], now + o.maxAge⟩⟩ o.maxAge] := by
  unfold cookieCreate
  simp [hdc, JVal.jsOr, hfalsy]

/-- Witness for C10: the present falsy values `""` and `0` are both
replaced by `{}` (the scenario options configure no `dataCreator`). -/
theorem create_replaces_falsy_data_witness :
    (cookieCreate oScenario 0 "A" (.str "") ⟨none, []⟩).1 = .obj [] ∧
    (cookieCreate oScenario 0 "A" (.num 0) ⟨none, []⟩).1 = .obj [] :=
  ⟨(create_replaces_falsy_data oScenario 0 "A" (.str "") ⟨none, []⟩ rfl rfl).1,
   (create_replaces_falsy_data oScenario 0 "A" (.num 0) ⟨none, []⟩ rfl rfl).1⟩

/-- C5: the expiry policy of the cookie store, for a `get` that succeeds
(decryptable, unexpired payload) and a `set` with live session metadata.
Under `rolling` both recompute the stored expiry (the published metadata,
and for `set` also the `_expires` of the re-encrypted envelope) to
`now + maxAge`.  Under `renew`, when `expiresAt - now ≥ renewBefore` the
expiry is left unchanged, and when `expiresAt - now < renewBefore` it is
updated to `now + maxAge`.  With neither flag the expiry never changes
after creation. -/
theorem cookie_expiry_policy (o : CookieStoreOptions) (now : Int)
    (sid : String) (ct : Ciphertext) (s : CStoreState) (meta : SessionMeta)
    (hsec : ct.secret = o.secret) (hsid : ct.sessionId = sid)
    (hlive : ¬(ct.plain.expires ≠ 0 ∧ ct.plain.expires < now))
    (hmeta : s.meta = some meta) :
    (o.rolling = true →
      (cookieGet o now sid (some ct) s).2.meta = some ⟨sid, now + o.maxAge⟩ ∧
      ∀ d, (cookieSet o now d s).2.meta = some ⟨meta.sessionId, now + o.maxAge⟩ ∧
        (cookieSet o now d s).2.headers = s.headers ++
          [.setData ⟨o.secret, meta.sessionId, ⟨d, now + o.maxAge⟩⟩ o.maxAge])
    ∧
    (o.rolling = false → o.renew = true →
      (o.renewBefore ≤ ct.plain.expires - now →
        (cookieGet o now sid (some ct) s).2.meta = some ⟨sid, ct.plain.expires⟩) ∧
      (ct.plain.expires - now < o.renewBefore →
        (cookieGet o now sid (some ct) s).2.meta = some ⟨sid, now + o.maxAge⟩) ∧
      ∀ d, (o.renewBefore ≤ meta.expiresTime - now →
          (cookieSet o now d s).2.meta = some ⟨meta.sessionId, meta.expiresTime⟩ ∧
          (cookieSet o now d s).2.headers = s.headers ++
            [.setData ⟨o.secret, meta.sessionId, ⟨d, meta.expiresTime⟩⟩ o.maxAge]) ∧
        (meta.expiresTime - now < o.renewBefore →
          (cookieSet o now d s).2.meta = some ⟨meta.sessionId, now + o.maxAge⟩))
    ∧
    (o.rolling = false → o.renew = false →
      (cookieGet o now sid (some ct) s).2.meta = some ⟨sid, ct.plain.expires⟩ ∧
      ∀ d, (cookieSet o now d s).2.meta = some ⟨meta.sessionId, meta.expiresTime⟩ ∧
        (cookieSet o now d s).2.headers = s.headers ++
          [.setData ⟨o.secret, meta.sessionId, ⟨d, meta.expiresTime⟩⟩ o.maxAge]) := by
  have hcond : ct.secret = o.secret ∧ ct.sessionId = sid := ⟨hsec, hsid⟩
  refine ⟨fun hroll => ?_, fun hroll hren => ?_, fun hroll hren => ?_⟩
  · constructor
    · simp [cookieGet, hcond, hlive, hroll]
    · intro d
      constructor <;> simp [cookieSet, hmeta, hroll]
  · refine ⟨fun hfar => ?_, fun hnear => ?_,
      fun d => ⟨fun hfar => ?_, fun hnear => ?_⟩⟩
    · simp [cookieGet, hcond, hlive, hroll, hren, not_lt.2 hfar]
    · simp [cookieGet, hcond, hlive, hroll, hren, hnear]
    · constructor <;> simp [cookieSet, hmeta, hroll, hren, not_lt.2 hfar]
    · simp [cookieSet, hmeta, hroll, hren, hnear]
  · refine ⟨?_, fun d => ?_⟩
    · simp [cookieGet, hcond, hlive, hroll, hren]
    · constructor <;> simp [cookieSet, hmeta, hroll, hren]

/-- Witness for C5: a rolling-mode `get` at time 100 on the scenario cookie
republishes expiry `100 + 1000`. -/
theorem cookie_expiry_policy_witness :
    (cookieGet { oScenario with rolling := true } 100 "A" (some ctScenario)
      sScenario).2.meta = some ⟨"A", 100 + 1000⟩ := by
  have h := (cookie_expiry_policy { oScenario with rolling := true } 100 "A"
    ctScenario sScenario ⟨"A", 1000⟩ rfl rfl (by decide) rfl).1 rfl
  exact h.1

/-- C3 counterexample: a request with a missing credential queues the
defensive `Parser.remove` mutation, then `autoCreateOnMissing` runs
`createNewSession`, whose `Store.create` fails.  The middleware
short-circuits with a freshly built 500 response that carries none of the
queued mutations: the already-queued cookie-clearing mutation is dropped,
not applied. -/
theorem error_shortcircuit_drops_mutations_counterexample :
    (resolutionPhase envNoCredCreateFails true mwS0).2.headers =
      [Hdr.removeCred] ∧
    middleware envNoCredCreateFails true false idHandler mwS0 =
      .error ⟨500, "Internal Server Error"⟩ ∧
    (middleware envNoCredCreateFails true false idHandler mwS0).respHeaders =
      [] := by
  refine ⟨rfl, rfl, rfl⟩

/-- C3 (amended): queued response mutations reach the returned response
only when no error short-circuit occurs.  When the middleware completes
normally it returns the downstream response merged with every mutation
accumulated in the request state, in order; when it short-circuits with an
error response (Store.get internal error, createNewSession failure, or an
autoSave failure) the error response carries no queued mutations — they are
dropped. -/
theorem mutations_applied_only_without_shortcircuit {H R : Type}
    (env : MWEnv H) (ac as : Bool) (handler : MWState H → MWState H × R)
    (s : MWState H) :
    (∀ hs r, middleware env ac as handler s = .final hs r →
      hs = (handler (handlerEntry env ac s)).1.headers) ∧
    (∀ e, middleware env ac as handler s = .error e →
      (middleware env ac as handler s).respHeaders = ([] : List H)) := by
  constructor
  · intro hs r
    unfold middleware
    rcases hres : resolutionPhase env ac s with ⟨err, st⟩
    rcases err with _ | e
    · rcases hh : handler (handlerEntry env ac s) with ⟨s₃, r'⟩
      rcases hsave : autoSavePhase env as s₃ with ⟨serr, calls⟩
      rcases serr with _ | e
      · simp only [hres, hh, hsave]
        intro hfin
        rw [MWResp.final.injEq] at hfin
        rw [← hfin.1]
      · simp only [hres, hh, hsave]
        intro hfin
        exact absurd hfin (by simp)
    · simp only [hres]
      intro hfin
      exact absurd hfin (by simp)
  · intro e he
    rw [he]
    rfl

/-- Witness for the amended C3: on the benign environment the middleware
completes normally and the response carries exactly the accumulated
mutations, while on the failing-create environment the 500 response carries
none. -/
theorem mutations_applied_only_without_shortcircuit_witness :
    ([] : List Hdr) = (idHandler (handlerEntry envA true mwS0)).1.headers ∧
    (middleware envNoCredCreateFails true false idHandler mwS0).respHeaders =
      ([] : List Hdr) := by
  constructor
  · exact (mutations_applied_only_without_shortcircuit envA true false
      idHandler mwS0).1 [] 0 rfl
  · exact (mutations_applied_only_without_shortcircuit envNoCredCreateFails
      true false idHandler mwS0).2 ⟨500, "Internal Server Error"⟩ rfl
